import Mathlib

/-!
Shallow embedding of `src/audio_record.py` (whisper_audiorecord).

The program has three components relevant to the specification:
- `AudioRecorder` (a QThread): opens an input stream on a device at a fixed
  sample rate, a streaming callback appends each delivered frame batch to
  `self.audio_data`, a poll loop sleeps in 100 ms steps while `self.recording`
  is true, and on loop exit the stream closes and the thread either emits
  `finished(concatenate(audio_data))` or `error("No audio data recorded")`.
- `WhisperTranscriber` (a QThread): loads the whisper model, writes the samples
  to a named temporary WAV file created with `delete=False`, transcribes from
  that path, then emits `language_detected` followed by `finished`; any raised
  exception is caught and emitted as a single `error`.
- `MainWindow`: device/rate/model combo boxes, a toggle button that starts a
  fresh `AudioRecorder` when `is_recording` is false and otherwise calls
  `recorder.stop()`; `on_recording_finished` reads the *current* combo values
  for sample rate and model name and starts a `WhisperTranscriber`.

Each component is embedded as a deterministic step function over an explicit
state, driven by an event/command list, so every theorem below can also be
evaluated on concrete inputs.
-/

namespace AudioRecord

/-- PCM samples of one frame batch delivered by a single callback invocation
(an AudioChunk).  Float samples are abstracted as integers; only counts,
order and identity of samples matter for the claims. -/
abbrev Chunk := List Int

/-! ## AudioRecorder (src/audio_record.py, lines 13-44) -/

/-- Signals the `AudioRecorder` thread can emit: `finished` with the
concatenated buffer, or `error` with a message. -/
inductive RecOutput where
  | finished (buf : List Int)
  | error (msg : String)
  deriving DecidableEq, Repr

/-- Events that can happen to a running `AudioRecorder` after its stream has
opened: a callback delivery (with the optional PortAudio status flag and the
frame batch), a `stop()` call from the GUI thread, and the poll loop waking
up, observing the flag, and (if the flag is cleared) closing the stream and
finalizing. -/
inductive RecEvent where
  | callback (status : Option String) (chunk : Chunk)
  | stop
  | pollExit
  deriving DecidableEq, Repr

/-- State of one `AudioRecorder` session, from just after the input stream
opened until the thread finishes.  `recording` is the `self.recording` flag,
`streamOpen` tracks whether the `with sd.InputStream(...)` block is still
active, `audio_data` is `self.audio_data`, `printed` the console output of the
callback, and `emitted` the Qt signals emitted so far. -/
structure RecorderState where
  recording : Bool
  streamOpen : Bool
  audio_data : List Chunk
  printed : List String
  emitted : List RecOutput
  deriving DecidableEq, Repr

/-- State right after `start_recording` set `recording = True` and the worker
opened the stream: flag set, stream open, no chunks, nothing printed or
emitted. -/
def initRecorder : RecorderState :=
  { recording := true, streamOpen := true, audio_data := [], printed := [],
    emitted := [] }

/-- `AudioRecorder.run` lines 30-34: after stream teardown, emit
`finished(np.concatenate(audio_data))` when the chunk list is non-empty,
otherwise `error("No audio data recorded")`. -/
def finalizeOutput (ad : List Chunk) : RecOutput :=
  if ad.isEmpty then .error "No audio data recorded" else .finished ad.flatten

/-- One step of the recorder session.
`callback` is `AudioRecorder.audio_callback` (lines 38-41): if a status flag
is present it is printed; the chunk is appended unconditionally (the stream
delivers callbacks for as long as it is open).  `stop` is `AudioRecorder.stop`
(lines 43-44): it only clears the flag.  `pollExit` is the poll loop of `run`
(lines 26-34) observing `recording = False`: the `with` block closes the
stream and the finalization branch runs once. -/
def recStep (s : RecorderState) (e : RecEvent) : RecorderState :=
  match e with
  | .callback status chunk =>
      if s.streamOpen then
        { s with printed := s.printed ++ status.toList,
                 audio_data := s.audio_data ++ [chunk] }
      else s
  | .stop => { s with recording := false }
  | .pollExit =>
      if s.streamOpen && !s.recording then
        { s with streamOpen := false,
                 emitted := s.emitted ++ [finalizeOutput s.audio_data] }
      else s

/-- Run a whole recorder session from `initRecorder` over an event trace. -/
def runRecorder (evs : List RecEvent) : RecorderState :=
  evs.foldl recStep initRecorder

/-- Delivering a list of status-free frame batches while the stream is open
only appends them, in delivery order. -/
lemma foldl_callbacks (cs : List Chunk) (s : RecorderState)
    (h : s.streamOpen = true) :
    (cs.map (RecEvent.callback none)).foldl recStep s =
      { s with audio_data := s.audio_data ++ cs } := by
  induction cs generalizing s with
  | nil => simp
  | cons c cs ih =>
      simp only [List.map_cons, List.foldl_cons, recStep, h, if_true]
      rw [ih _ (by simp [h])]
      simp

/-- C1.  For a session in which the batches `cs` are delivered before
`stop()` and the worker then tears down, the single emitted buffer is the
concatenation of the batches in delivery order, and its sample count is the
sum of the batches' sample counts. -/
theorem finalized_buffer_is_ordered_concat (cs : List Chunk) (h : cs ≠ []) :
    (runRecorder (cs.map (RecEvent.callback none) ++
        [RecEvent.stop, RecEvent.pollExit])).emitted
      = [RecOutput.finished cs.flatten]
    ∧ cs.flatten.length = (cs.map List.length).sum := by
  constructor
  · unfold runRecorder
    rw [List.foldl_append, foldl_callbacks cs initRecorder rfl]
    simp [initRecorder, recStep, finalizeOutput, h]
  · exact List.length_flatten cs

/-- C1 witness: three batches of sizes 2, 1, 3 finalize into the ordered
6-sample buffer. -/
theorem finalized_buffer_is_ordered_concat_witness :
    (runRecorder ([[(1 : Int), 2], [3], [4, 5, 6]].map (RecEvent.callback none) ++
        [RecEvent.stop, RecEvent.pollExit])).emitted
      = [RecOutput.finished [1, 2, 3, 4, 5, 6]]
    ∧ ([[(1 : Int), 2], [3], [4, 5, 6]] : List Chunk).flatten.length
      = ([[(1 : Int), 2], [3], [4, 5, 6]].map List.length).sum := by
  have h := finalized_buffer_is_ordered_concat [[(1 : Int), 2], [3], [4, 5, 6]]
    (by decide)
  exact ⟨by rw [h.1]; rfl, h.2⟩

/-- C3 counterexample.  A callback that reports an error status ("input
overflow") does not abort the session: after it, nothing has been emitted,
the flag is still set (state still Recording), the error-bearing chunk was
appended, and only a console print happened; moreover a later chunk still
contributes to the buffer finally emitted as `finished`, which the claim
forbids. -/
theorem callback_error_does_not_abort_cex :
    (recStep initRecorder (RecEvent.callback (some "input overflow") [1])).emitted
        = []
    ∧ (recStep initRecorder (RecEvent.callback (some "input overflow") [1])).recording
        = true
    ∧ (recStep initRecorder (RecEvent.callback (some "input overflow") [1])).audio_data
        = [[1]]
    ∧ (recStep initRecorder (RecEvent.callback (some "input overflow") [1])).printed
        = ["input overflow"]
    ∧ (runRecorder [RecEvent.callback (some "input overflow") [1],
        RecEvent.callback none [2], RecEvent.stop, RecEvent.pollExit]).emitted
        = [RecOutput.finished [1, 2]] := by
  refine ⟨rfl, rfl, rfl, rfl, rfl⟩

/-- C3 amended.  An error status reported through the streaming callback
channel is printed to the console only: the session state, the emitted
signals and the stop flag are unchanged, and the delivered chunk is still
appended, so the session continues recording. -/
theorem callback_status_only_printed (s : RecorderState) (msg : String)
    (c : Chunk) (h : s.streamOpen = true) :
    recStep s (RecEvent.callback (some msg) c)
      = { s with printed := s.printed ++ [msg],
                 audio_data := s.audio_data ++ [c] } := by
  simp [recStep, h, Option.toList]

/-- C3 amended witness: the theorem applied to the initial state and the
status message "input overflow". -/
theorem callback_status_only_printed_witness :
    recStep initRecorder (RecEvent.callback (some "input overflow") [7])
      = { initRecorder with printed := ["input overflow"],
                            audio_data := [[7]] } :=
  callback_status_only_printed initRecorder "input overflow" [7] rfl

/-- C4.  If the worker tears down with zero delivered chunks (and nothing yet
emitted), the session emits exactly the empty-recording error and in
particular no `finished` buffer of any kind. -/
theorem empty_recording_yields_error (s : RecorderState)
    (h1 : s.streamOpen = true) (h2 : s.recording = false)
    (h3 : s.audio_data = []) (h4 : s.emitted = []) :
    (recStep s RecEvent.pollExit).emitted
      = [RecOutput.error "No audio data recorded"] := by
  simp [recStep, h1, h2, h3, h4, finalizeOutput]

/-- C4 witness: a session where `stop()` arrives before any callback tears
down into exactly the empty-recording error. -/
theorem empty_recording_yields_error_witness :
    (recStep (runRecorder [RecEvent.stop]) RecEvent.pollExit).emitted
      = [RecOutput.error "No audio data recorded"] :=
  empty_recording_yields_error (runRecorder [RecEvent.stop]) rfl rfl rfl rfl

/-- C8 counterexample.  After `stop()` the session is in Stopping (flag
cleared, stream still open until the poll loop wakes); a callback arriving in
that window is still appended to the chunk sequence and even ends up in the
buffer emitted on completion, so chunks are not appended only while the state
is Recording. -/
theorem append_during_stopping_cex :
    (runRecorder [RecEvent.stop]).recording = false
    ∧ (runRecorder [RecEvent.stop]).streamOpen = true
    ∧ (runRecorder [RecEvent.stop, RecEvent.callback none [5]]).audio_data
        = [[5]]
    ∧ (runRecorder [RecEvent.stop, RecEvent.callback none [5],
        RecEvent.pollExit]).emitted = [RecOutput.finished [5]] := by
  refine ⟨rfl, rfl, rfl, rfl⟩

/-- C8 amended.  Chunks may be appended whenever the callback fires while the
stream is open — which includes the Stopping window between `stop()` and
stream teardown — and the chunk sequence is read-only once the stream has
closed (the session being then Completed or Failed): no event whatsoever
changes `audio_data` after the stream closes. -/
theorem audio_data_readonly_after_close (s : RecorderState) (e : RecEvent)
    (h : s.streamOpen = false) :
    (recStep s e).audio_data = s.audio_data := by
  cases e with
  | callback status chunk => simp [recStep, h]
  | stop => rfl
  | pollExit => simp [recStep, h]

/-- C8 amended witness: after a completed session, a stray callback delivery
leaves the chunk sequence unchanged. -/
theorem audio_data_readonly_after_close_witness :
    (recStep (runRecorder [RecEvent.stop, RecEvent.pollExit])
        (RecEvent.callback none [9])).audio_data
      = (runRecorder [RecEvent.stop, RecEvent.pollExit]).audio_data :=
  audio_data_readonly_after_close (runRecorder [RecEvent.stop, RecEvent.pollExit])
    (RecEvent.callback none [9]) rfl

/-! ## WhisperTranscriber (src/audio_record.py, lines 46-77) -/

/-- Signals the `WhisperTranscriber` thread can emit. -/
inductive TransEvent where
  | languageDetected (s : String)
  | finished (text : String)
  | error (msg : String)
  deriving DecidableEq, Repr

/-- Whether a transcriber event is an `error` signal. -/
def TransEvent.isError : TransEvent → Bool
  | .error _ => true
  | _ => false

/-- Outcomes of the three fallible external calls made by
`WhisperTranscriber.run`: `whisper.load_model`, `sf.write` into the temporary
WAV file, and `model.transcribe` (whose result dict carries the detected
language and the text).  Each either succeeds or raises an exception with a
message. -/
structure TransEnv where
  loadResult : Except String Unit
  writeResult : Except String Unit
  transcribeResult : Except String (String × String)
  deriving Repr

/-- Whether an external call succeeded (did not raise). -/
def exceptOk {ε α : Type} : Except ε α → Bool
  | .ok _ => true
  | .error _ => false

/-- Observable outcome of one `WhisperTranscriber.run`: the emitted signals in
order, whether the named temporary WAV file was created, whether its OS file
handle was closed by the time the thread ended, and whether the file itself
still exists on disk when the thread ends. -/
structure TransOutcome where
  events : List TransEvent
  tempFileCreated : Bool
  handleClosed : Bool
  tempFileExists : Bool
  deriving Repr

/-- `WhisperTranscriber.run` (lines 58-77): load the model; create a named
temporary WAV file with `delete=False` and write the samples into it inside a
`with` block (the block closes the handle on every exit, but `delete=False`
means the file is never removed, and no later code removes it); transcribe
from the file path; emit `language_detected` with the
"Detected language: ..." text, then `finished` with the transcript.  Any
exception at any step is caught by the single `except` and emitted as one
`error` signal. -/
def transRun : TransEnv → TransOutcome
  | ⟨.error e, _, _⟩ =>
      { events := [.error e], tempFileCreated := false, handleClosed := true,
        tempFileExists := false }
  | ⟨.ok _, .error e, _⟩ =>
      { events := [.error e], tempFileCreated := true, handleClosed := true,
        tempFileExists := true }
  | ⟨.ok _, .ok _, .error e⟩ =>
      { events := [.error e], tempFileCreated := true, handleClosed := true,
        tempFileExists := true }
  | ⟨.ok _, .ok _, .ok (lang, text)⟩ =>
      { events := [.languageDetected ("Detected language: " ++ lang),
                   .finished text],
        tempFileCreated := true, handleClosed := true, tempFileExists := true }

/-- C6.  On a fully successful run the transcriber emits exactly the
language-detected event followed by the finished event, in that order; if any
of the three steps fails, it emits exactly one error event and never a
finished event. -/
theorem transcriber_event_discipline (env : TransEnv) :
    (∀ lang text, env.loadResult = .ok () → env.writeResult = .ok () →
        env.transcribeResult = .ok (lang, text) →
        (transRun env).events
          = [TransEvent.languageDetected ("Detected language: " ++ lang),
             TransEvent.finished text])
    ∧ ((exceptOk env.loadResult = false ∨ exceptOk env.writeResult = false ∨
          exceptOk env.transcribeResult = false) →
        ((transRun env).events.countP (fun e => e.isError) = 1
          ∧ ∀ t, TransEvent.finished t ∉ (transRun env).events)) := by
  obtain ⟨l, w, t⟩ := env
  constructor
  · rintro lang text rfl rfl rfl
    rfl
  · intro h
    rcases l with el | ⟨⟩
    · exact ⟨rfl, fun t2 h2 => by simp [transRun] at h2⟩
    rcases w with ew | ⟨⟩
    · exact ⟨rfl, fun t2 h2 => by simp [transRun] at h2⟩
    rcases t with et | ⟨lang, text⟩
    · exact ⟨rfl, fun t2 h2 => by simp [transRun] at h2⟩
    · rcases h with h | h | h <;> simp [exceptOk] at h

/-- C6 witness: the theorem applied to one all-success environment and one
environment whose model load fails. -/
theorem transcriber_event_discipline_witness :
    (transRun ⟨.ok (), .ok (), .ok ("en", "hello")⟩).events
      = [TransEvent.languageDetected "Detected language: en",
         TransEvent.finished "hello"]
    ∧ (transRun ⟨.error "load failed", .ok (), .ok ("en", "hello")⟩).events.countP
        (fun e => e.isError) = 1
    ∧ TransEvent.finished "hello"
        ∉ (transRun ⟨.error "load failed", .ok (), .ok ("en", "hello")⟩).events := by
  refine ⟨?_, ?_, ?_⟩
  · exact (transcriber_event_discipline ⟨.ok (), .ok (), .ok ("en", "hello")⟩).1
      "en" "hello" rfl rfl rfl
  · exact ((transcriber_event_discipline
      ⟨.error "load failed", .ok (), .ok ("en", "hello")⟩).2 (Or.inl rfl)).1
  · exact ((transcriber_event_discipline
      ⟨.error "load failed", .ok (), .ok ("en", "hello")⟩).2 (Or.inl rfl)).2 "hello"

/-- C7 counterexample.  On a fully successful run the temporary WAV file is
created and still exists on disk when the job ends: `NamedTemporaryFile` is
called with `delete=False` and no code ever removes the file, so the scoped
temporary resource is not released on the success path (nor on any other
path where it was created). -/
theorem temp_file_not_released_cex :
    (transRun ⟨.ok (), .ok (), .ok ("en", "hello")⟩).tempFileCreated = true
    ∧ (transRun ⟨.ok (), .ok (), .ok ("en", "hello")⟩).tempFileExists = true
    ∧ (transRun ⟨.ok (), .error "disk full", .ok ("en", "hello")⟩).tempFileExists
        = true := by
  refine ⟨rfl, rfl, rfl⟩

/-- C7 amended.  On every exit path the `with` block closes the temporary
file's handle, but the file itself — created with `delete=False` and never
removed — persists after the job whenever it was created at all. -/
theorem temp_handle_closed_file_persists (env : TransEnv) :
    (transRun env).handleClosed = true
    ∧ (transRun env).tempFileExists = (transRun env).tempFileCreated := by
  obtain ⟨l, w, t⟩ := env
  cases l <;> cases w <;> rcases t with _ | ⟨⟨lang, text⟩⟩ <;>
    exact ⟨rfl, rfl⟩

/-! ## MainWindow (src/audio_record.py, lines 79-196) -/

/-- The fixed candidate sample-rate set probed by
`MainWindow.get_supported_samplerates` (line 130), in source order. -/
def candidate_rates : List Nat := [8000, 16000, 22050, 44100, 48000]

/-- `MainWindow.get_supported_samplerates` (lines 128-136): walk the fixed
candidate list in order; for each rate call `sd.check_input_settings` — the
device probe, abstracted as the boolean `probe` — and append the rate on
success; a `PortAudioError` from the probe is swallowed (`except ... pass`)
and the rate simply skipped.  The loop-with-append is list filtering. -/
def get_supported_samplerates (probe : Nat → Bool) : List Nat :=
  candidate_rates.filter probe

/-- C9.  The supported-rate list contains exactly the candidate rates passing
the probe (so a probe failure silently removes its rate and is never an
error), and it is in strictly ascending numeric order. -/
theorem supported_samplerates_spec (probe : Nat → Bool) :
    (∀ r, r ∈ get_supported_samplerates probe ↔
        (r ∈ candidate_rates ∧ probe r = true))
    ∧ (get_supported_samplerates probe).Sorted (· < ·) := by
  constructor
  · intro r
    simp [get_supported_samplerates, List.mem_filter]
  · exact List.Pairwise.sublist (List.filter_sublist candidate_rates)
      (by unfold candidate_rates; decide)

/-- Scenario from the specification: a probe rejecting exactly 8000 Hz and
48000 Hz yields exactly [16000, 22050, 44100]. -/
theorem supported_samplerates_scenario :
    get_supported_samplerates
        (fun r => decide (r ≠ 8000) && decide (r ≠ 48000))
      = [16000, 22050, 44100] := by
  decide

/-- State of one capture session as seen from the orchestration layer:
Recording and Stopping are non-terminal, Completed and Failed terminal. -/
inductive Phase where
  | recording
  | stopping
  | completed
  | failed
  deriving DecidableEq, Repr

/-- Whether a session phase is non-terminal. -/
def Phase.nonTerminal : Phase → Bool
  | .recording => true
  | .stopping => true
  | .completed => false
  | .failed => false

/-- One `AudioRecorder` instance created by `start_recording`: the sample
rate passed to its constructor (immutable thereafter, line 17-20) and its
current phase. -/
structure Session where
  samplerate : Nat
  phase : Phase
  deriving DecidableEq, Repr

/-- The constructor arguments of a started `WhisperTranscriber` (lines
51-56): the buffer, the sample rate and the model name it was handed. -/
structure TranscriberArgs where
  audio_data : List Int
  sample_rate : Option Nat
  model_name : String
  deriving DecidableEq, Repr

/-- `MainWindow` state: current combo-box selections (`currentData` of the
device and sample-rate combos, `currentText` of the model combo), the
`is_recording` flag, every `AudioRecorder` created so far in creation order
(`self.recorder` is the last one), every `WhisperTranscriber` started so far,
and the warning/error dialogs shown. -/
structure WinState where
  deviceSel : Option Nat
  rateSel : Option Nat
  modelSel : String
  is_recording : Bool
  sessions : List Session
  transcribers : List TranscriberArgs
  warnings : List String
  errorsShown : List String
  deriving DecidableEq, Repr

/-- Commands and worker signals processed by the GUI thread: combo-box
selection changes, a click of the record/stop toggle button, and delivery of
a recorder thread's `finished` or `error` signal (for the recorder created
`i`-th). -/
inductive Cmd where
  | selectRate (r : Nat)
  | selectModel (m : String)
  | press
  | sessionDone (i : Nat) (buf : List Int)
  | sessionFail (i : Nat) (msg : String)
  deriving DecidableEq, Repr

/-- Initial window state: a device selected, the rate combo on 16000 Hz, the
model combo on its first entry "tiny", nothing recorded yet. -/
def initWin : WinState :=
  { deviceSel := some 0, rateSel := some 16000, modelSel := "tiny",
    is_recording := false, sessions := [], transcribers := [], warnings := [],
    errorsShown := [] }

/-- `MainWindow.start_recording` (lines 144-156): if either combo has no
current data, show a warning and change nothing; otherwise construct an
`AudioRecorder(device, samplerate)`, set its flag, start it (a fresh session
in phase Recording) and set `is_recording`. -/
def start_recording (s : WinState) : WinState :=
  match s.deviceSel, s.rateSel with
  | some _, some r =>
      { s with sessions := s.sessions ++ [{ samplerate := r, phase := .recording }],
               is_recording := true }
  | _, _ =>
      { s with warnings := s.warnings ++ ["Please select a device and sample rate."] }

/-- Effect of `AudioRecorder.stop()` on the phase of the recorder it is
called on: a recording session starts stopping; for a session whose thread
already finished, clearing the flag changes nothing. -/
def stopPhase : Phase → Phase
  | .recording => .stopping
  | p => p

/-- Apply `stop()` to the most recently created recorder (`self.recorder`). -/
def stopLast : List Session → List Session
  | [] => []
  | [sess] => [{ sess with phase := stopPhase sess.phase }]
  | sess :: rest => sess :: stopLast rest

/-- `MainWindow.stop_recording` (lines 158-162): if a recorder exists, call
its `stop()` and clear `is_recording`; otherwise do nothing. -/
def stop_recording (s : WinState) : WinState :=
  if s.sessions.isEmpty then s
  else { s with sessions := stopLast s.sessions, is_recording := false }

/-- One GUI-thread step.  `press` is `toggle_recording` (lines 138-142).
`sessionDone i buf` is recorder `i`'s `finished(buf)` signal reaching
`on_recording_finished` (lines 190-196): only a recorder whose loop exited —
phase Stopping — can emit it; the slot reads the sample-rate combo's
*current* data and the model combo's *current* text and starts a
`WhisperTranscriber(buf, sample_rate, model_name)`.  `sessionFail i msg` is
recorder `i`'s `error(msg)` signal reaching `on_error` (lines 176-177). -/
def winStep (s : WinState) (c : Cmd) : WinState :=
  match c with
  | .selectRate r => { s with rateSel := some r }
  | .selectModel m => { s with modelSel := m }
  | .press => if s.is_recording then stop_recording s else start_recording s
  | .sessionDone i buf =>
      match s.sessions[i]? with
      | some sess =>
          if sess.phase = .stopping then
            { s with
              sessions := s.sessions.set i { sess with phase := .completed },
              transcribers := s.transcribers ++
                [{ audio_data := buf, sample_rate := s.rateSel,
                   model_name := s.modelSel }] }
          else s
      | none => s
  | .sessionFail i msg =>
      match s.sessions[i]? with
      | some sess =>
          if sess.phase.nonTerminal then
            { s with
              sessions := s.sessions.set i { sess with phase := .failed },
              errorsShown := s.errorsShown ++ [msg] }
          else s
      | none => s

/-- Run the window from `initWin` over a command trace. -/
def runWin (cs : List Cmd) : WinState :=
  cs.foldl winStep initWin

/-- C2 failing input.  A session is started with the rate combo on 16000 Hz
(so `AudioRecorder.samplerate = 16000` for the session's whole lifetime), the
operator then selects 44100 Hz while recording, stops, and the recorder
finishes.  `on_recording_finished` re-reads `samplerate_combo.currentData()`
at hand-off, so the `WhisperTranscriber` is constructed with 44100 — not the
session rate 16000 the buffer was actually captured at — contradicting the
claim (and mislabeling the WAV file's rate). -/
theorem handoff_uses_current_rate_not_session_rate :
    (runWin [Cmd.selectRate 16000, Cmd.press, Cmd.selectRate 44100, Cmd.press,
        Cmd.sessionDone 0 [1, 2, 3]]).transcribers
      = [{ audio_data := [1, 2, 3], sample_rate := some 44100,
           model_name := "tiny" }]
    ∧ (runWin [Cmd.selectRate 16000, Cmd.press, Cmd.selectRate 44100, Cmd.press,
        Cmd.sessionDone 0 [1, 2, 3]]).sessions
      = [{ samplerate := 16000, phase := Phase.completed }] := by
  refine ⟨rfl, rfl⟩

/-- C5.  Whatever model identifier is selected last before the recorder's
`finished` signal is handled — including a selection made after the capture
ended — is the one the `WhisperTranscriber` is constructed with:
`on_recording_finished` reads `model_combo.currentText()` at hand-off, not a
value fixed at capture start. -/
theorem handoff_reads_current_model (s : WinState) (m : String) (i : Nat)
    (buf : List Int) (sess : Session) (h1 : s.sessions[i]? = some sess)
    (h2 : sess.phase = Phase.stopping) :
    (winStep (winStep s (Cmd.selectModel m)) (Cmd.sessionDone i buf)).transcribers
      = s.transcribers ++
        [{ audio_data := buf, sample_rate := s.rateSel, model_name := m }] := by
  simp [winStep, h1, h2]

/-- C5 witness: a session started with the model combo on "tiny" hands off to
a transcriber constructed with "large" after the selection changed to "large"
just before hand-off. -/
theorem handoff_reads_current_model_witness :
    (winStep (winStep (runWin [Cmd.press, Cmd.press]) (Cmd.selectModel "large"))
        (Cmd.sessionDone 0 [7])).transcribers
      = (runWin [Cmd.press, Cmd.press]).transcribers ++
        [{ audio_data := [7], sample_rate := (runWin [Cmd.press, Cmd.press]).rateSel,
           model_name := "large" }] :=
  handoff_reads_current_model (runWin [Cmd.press, Cmd.press]) "large" 0 [7]
    { samplerate := 16000, phase := Phase.stopping } rfl rfl

/-- C10 counterexample.  Press (start), press (stop), press again before the
recorder thread finishes its ≈100 ms poll step: after the second press the
only session is in phase Stopping — not Idle — yet the third press is
accepted by `toggle_recording` (because `stop_recording` already cleared
`is_recording`) and creates a second session, leaving two sessions
non-terminal at once; the claim requires this `start()` to be rejected. -/
theorem start_accepted_while_stopping_cex :
    (runWin [Cmd.press, Cmd.press]).sessions
      = [{ samplerate := 16000, phase := Phase.stopping }]
    ∧ (runWin [Cmd.press, Cmd.press]).is_recording = false
    ∧ (runWin [Cmd.press, Cmd.press, Cmd.press]).sessions
      = [{ samplerate := 16000, phase := Phase.stopping },
         { samplerate := 16000, phase := Phase.recording }]
    ∧ ((runWin [Cmd.press, Cmd.press, Cmd.press]).sessions.filter
        (fun sess => sess.phase.nonTerminal)).length = 2 := by
  refine ⟨rfl, rfl, rfl, rfl⟩

/-- Calling `stop()` on the last recorder preserves how many sessions
exist. -/
lemma stopLast_length (l : List Session) : (stopLast l).length = l.length := by
  induction l with
  | nil => rfl
  | cons a l ih =>
      cases l with
      | nil => rfl
      | cons b l2 => simpa [stopLast] using ih

/-- C10 amended.  A press of the toggle button while `is_recording` is true —
i.e. while the current session is still in phase Recording — never starts a
new session, a transcriber, or a warning dialog (it is routed to
`stop_recording`); the original claim's rejection guarantee holds only for
that case, since during Stopping `is_recording` is already false and a new
`start()` is accepted (see the counterexample). -/
theorem start_rejected_while_recording (s : WinState)
    (h : s.is_recording = true) :
    (winStep s Cmd.press).sessions.length = s.sessions.length
    ∧ (winStep s Cmd.press).transcribers = s.transcribers
    ∧ (winStep s Cmd.press).warnings = s.warnings := by
  simp only [winStep, h, if_true]
  unfold stop_recording
  by_cases he : s.sessions.isEmpty <;> simp [he, stopLast_length]

/-- C10 amended witness: the theorem applied to the state right after a
recording started. -/
theorem start_rejected_while_recording_witness :
    (winStep (runWin [Cmd.press]) Cmd.press).sessions.length
      = (runWin [Cmd.press]).sessions.length
    ∧ (winStep (runWin [Cmd.press]) Cmd.press).transcribers
      = (runWin [Cmd.press]).transcribers
    ∧ (winStep (runWin [Cmd.press]) Cmd.press).warnings
      = (runWin [Cmd.press]).warnings :=
  start_rejected_while_recording (runWin [Cmd.press]) rfl

end AudioRecord
